import Mathlib

/- Verification of the DuneGuide.AI retrieval-augmented chatbot (src/app.py):
   a shallow embedding of its retrieval, prompt-composition, conversation-log
   and rendering logic, with the external vector store, embedding endpoint and
   generative model as parameters. -/

/-- A chat message, the Python dict `{"role": ..., "content": ...}` appended to
`st.session_state["conversation_history"]`. -/
structure Message where
  role : String
  content : String
deriving DecidableEq

/-- The vector-store backend as `app.py` sees it: `db.query(query_texts=[query],
n_results=n)` either raises (modelled `Except.error` carrying the message text)
or returns a result object. `none` models a falsy result; `some docs` models a
truthy result whose `documents` field is `docs` (a list of one ranked document
list per query text), where `docs = []` is a falsy `documents` field. -/
structure DB where
  query : List String → Nat → Except String (Option (List (List String)))

/-- What a call to `get_relevant_passages` produces: the returned value
(`none` embeds Python `None`) together with the warning texts surfaced through
`st.error` during the call. -/
structure RetrievalOutcome where
  passages : Option (List String)
  warnings : List String
deriving DecidableEq

/-- src/app.py lines 21-33: query the database, return the first ranked document
list when the result and its `documents` field are truthy, `None` otherwise; an
exception is caught, surfaced via `st.error`, and converted to `None`. -/
def get_relevant_passages (q : String) (db : DB) (n_results : Nat := 10) :
    RetrievalOutcome :=
  match db.query [q] n_results with
  | Except.error e =>
      { passages := none, warnings := ["Error querying database: " ++ e] }
  | Except.ok none => { passages := none, warnings := [] }
  | Except.ok (some docs) =>
      match docs with
      | [] => { passages := none, warnings := [] }
      | d :: _ => { passages := some d, warnings := [] }

/-- The single-quote character. -/
def squote : Char := Char.ofNat 39

/-- The double-quote character. -/
def dquote : Char := Char.ofNat 34

/-- Python `s.replace(c, "")` for a one-character pattern `c`: every occurrence
of `c` is removed and all other characters are kept in order. -/
def removeChar (c : Char) (s : String) : String :=
  String.mk (s.data.filter (fun a => a != c))

/-- The persona sentence opening the prompt template (src/app.py line 42,
including its trailing blank). -/
def persona_line : String :=
  "You are a chatbot specializing in helping users find deals for tourist attractions in Dubai. "

/-- The template text before the substituted query (src/app.py lines 41-44). -/
def prompt_head : String :=
  "\n    " ++ persona_line ++ "\n\n    User's question: "

/-- The template text between the substituted query and the substituted context
(src/app.py lines 44-47). -/
def prompt_mid : String :=
  "\n\n    Context information about available deals:\n    "

/-- The Burj Khalifa / Burj Al Arab disambiguation instruction (src/app.py
line 57, including its trailing blank). -/
def disambiguation_line : String :=
  "Also note that for Burj Khalifa only return Burj Khalifa deals and for burj al arab only return burj al arab deals. "

/-- The template text after the substituted context, before the disambiguation
instruction (src/app.py lines 47-56). -/
def prompt_tail_pre : String :=
  "\n\n    Your response must be detailed, friendly, and helpful. \n    Provide recommendations for deals related to the user's query, including:\n    - Attraction name\n    - Deal description\n    - Price (in AED and USD, assuming a fixed exchange rate)\n    - Relevant tips (e.g., operating hours, best visit times, nearby attractions)\n\n    Ensure the response is conversational and encourages the user to ask follow-up questions. \n    "

/-- The template text after the substituted context (src/app.py lines 47-58). -/
def prompt_tail : String :=
  prompt_tail_pre ++ disambiguation_line ++ "\n    "

/-- src/app.py lines 36-59: strip single then double quotes from the passage
text and substitute query and escaped context into the f-string template. -/
def make_prompt (q relevant_passage : String) : String :=
  let escaped := removeChar dquote (removeChar squote relevant_passage)
  prompt_head ++ q ++ prompt_mid ++ escaped ++ prompt_tail

/-- src/app.py lines 62-67: `"\n".join(passages)`. -/
def convert_passages_to_string (passages : List String) : String :=
  String.intercalate "\n" passages

/-- The fixed fallback message (src/app.py line 134). -/
def fallback_text : String :=
  "Sorry, I couldn't find any relevant deals. Please try another query!"

/-- What one turn of `main` leaves behind: the new conversation history, the
prompts sent to the Generation Client (`model.generate_content`), the
`(query, n_results)` arguments of the calls made to `get_relevant_passages`,
and the warnings surfaced by those calls. -/
structure TurnResult where
  history : List Message
  genCalls : List String
  retrievalCalls : List (String × Nat)
  warnings : List String
deriving DecidableEq

/-- One turn of `main` (src/app.py lines 115-135): Streamlit reruns the script
per interaction, so a turn is a function of the session history and the
text-input value. An empty input string is falsy, so the `if user_query:` block
is skipped; otherwise the user message is appended, passages are fetched with
`n_results = 5`, and either a generated response (`gen` is the external
generative model) or the fixed fallback message is appended. -/
def main_turn (db : DB) (gen : String → String) (history : List Message)
    (user_query : String) : TurnResult :=
  if user_query = "" then
    { history := history, genCalls := [], retrievalCalls := [], warnings := [] }
  else
    let history1 := history ++ [{ role := "user", content := user_query }]
    let r := get_relevant_passages user_query db 5
    match r.passages with
    | some (p :: ps) =>
        let context := convert_passages_to_string (p :: ps)
        let prompt := make_prompt user_query context
        let response := gen prompt
        { history := history1 ++ [{ role := "assistant", content := response }],
          genCalls := [prompt], retrievalCalls := [(user_query, 5)],
          warnings := r.warnings }
    | _ =>
        { history := history1 ++ [{ role := "assistant", content := fallback_text }],
          genCalls := [], retrievalCalls := [(user_query, 5)],
          warnings := r.warnings }

/-- src/app.py lines 137-142: the markdown line rendered for one message. -/
def render_line (m : Message) : String :=
  if m.role = "user" then "**You:** " ++ m.content
  else "**DuneGuide:** " ++ m.content

/-- src/app.py lines 137-142: the rendered conversation history, one markdown
line per message in insertion order. -/
def render_history (log : List Message) : List String :=
  log.map render_line

/-- Conversation histories reachable from the empty session log by completed
turns of `main` (src/app.py lines 98-99 initialise the log to `[]`). -/
inductive ReachableLog (db : DB) (gen : String → String) : List Message → Prop
  | init : ReachableLog db gen []
  | step (h : List Message) (q : String) :
      ReachableLog db gen h → ReachableLog db gen (main_turn db gen h q).history

/-- Modelled from the spec: the persistent vector store is the external
chromadb collaborator (`chromadb.PersistentClient(path).get_or_create_collection(name)`),
whose code is not part of this repository. A client state maps a
`(path, collection name)` key to that collection's underlying data. -/
structure ChromaState (α : Type) where
  collections : List ((String × String) × α)

/-- Modelled from the spec: look up a collection's data by `(path, name)`. -/
def findCollection {α : Type} (s : ChromaState α) (k : String × String) :
    Option α :=
  (s.collections.find? (fun p => p.1 == k)).map (fun p => p.2)

/-- Modelled from the spec: `get_or_create_collection` returns the existing
collection under `(path, name)` unchanged, or creates a fresh one there. -/
def get_or_create_collection {α : Type} (s : ChromaState α) (path name : String)
    (fresh : α) : ChromaState α × α :=
  match findCollection s (path, name) with
  | some c => (s, c)
  | none => ({ collections := ((path, name), fresh) :: s.collections }, fresh)

/-- src/app.py lines 79-86 over the modelled store: open the collection named
`sme_db` of the persistent client at path `../database/`. -/
def loadVectorDataBase {α : Type} (s : ChromaState α) (fresh : α) :
    ChromaState α × α :=
  get_or_create_collection s "../database/" "sme_db" fresh

/-- The conversation-log ordering property: every user message at index `i`
(except possibly the last message, when nothing sits at index `i + 1`) is
immediately followed by an assistant message at index `i + 1`. -/
def user_followed (log : List Message) : Prop :=
  ∀ i : Nat, ∀ m m2 : Message,
    log[i]? = some m → log[i + 1]? = some m2 →
    m.role = "user" → m2.role = "assistant"

/-- Auxiliary invariant: a nonempty log ends with an assistant message. -/
def ends_assistant (log : List Message) : Prop :=
  ∀ m : Message, log[log.length - 1]? = some m → m.role = "assistant"

/-- A backend whose query call always raises. -/
def db_err : DB := ⟨fun _ _ => Except.error "database offline"⟩

/-- A backend that returns one ranked list that is itself empty. -/
def db_empty_doc : DB := ⟨fun _ _ => Except.ok (some [[]])⟩

/-- A backend that returns two stored passages. -/
def db_two : DB :=
  ⟨fun _ _ => Except.ok (some [["Burj Khalifa: 20% off", "City tour deal"]])⟩

/-- A stand-in generative model. -/
def gen0 : String → String := fun _ => "Here are some deals!"

/-- The character list of `removeChar c s` is the source list with every
occurrence of `c` filtered out. -/
theorem removeChar_data (c : Char) (s : String) :
    (removeChar c s).data = s.data.filter (fun a => a != c) := rfl

/-- Membership after `removeChar`: the character came from the source and is
not the removed one. -/
theorem mem_removeChar {a c : Char} {s : String}
    (h : a ∈ (removeChar c s).data) : a ∈ s.data ∧ a ≠ c := by
  rw [removeChar_data] at h
  have h2 := List.mem_filter.mp h
  exact ⟨h2.1, by simpa using h2.2⟩

/-- Stripping single then double quotes keeps exactly the characters that are
neither quote, in order. -/
theorem removeChar_quotes_data (s : String) :
    (removeChar dquote (removeChar squote s)).data =
      s.data.filter (fun c => c != squote && c != dquote) := by
  rw [removeChar_data, removeChar_data, List.filter_filter]
  congr 1
  funext a
  exact Bool.and_comm _ _

/-- C3: the Passage Retriever returns `None` whenever the vector store returns
zero documents or the backend call raises; an error is caught (the function is
total, so nothing propagates to the caller) and converted to a `None` result
plus a surfaced warning. -/
theorem get_relevant_passages_null_on_empty_or_error (q : String) (db : DB)
    (n : Nat) :
    (∀ e, db.query [q] n = Except.error e →
      (get_relevant_passages q db n).passages = none ∧
        (get_relevant_passages q db n).warnings ≠ []) ∧
    (db.query [q] n = Except.ok none →
      get_relevant_passages q db n = ⟨none, []⟩) ∧
    (db.query [q] n = Except.ok (some []) →
      get_relevant_passages q db n = ⟨none, []⟩) := by
  refine ⟨fun e he => ?_, fun h => ?_, fun h => ?_⟩ <;>
    simp [get_relevant_passages, *]

/-- Witness for C3 at a backend whose call raises. -/
theorem get_relevant_passages_null_on_empty_or_error_witness :
    (get_relevant_passages "desert safari" db_err 10).passages = none ∧
      (get_relevant_passages "desert safari" db_err 10).warnings ≠ [] :=
  (get_relevant_passages_null_on_empty_or_error "desert safari" db_err 10).1
    "database offline" rfl

/-- C1: when retrieval yields no passages (a `None` result, which covers the
caught-error case, or an empty one), the turn appends the user message and then
the fixed fallback assistant message, and the Generation Client is never
invoked. -/
theorem turn_fallback_no_generation (db : DB) (gen : String → String)
    (history : List Message) (q : String) (hq : q ≠ "")
    (hr : (get_relevant_passages q db 5).passages = none ∨
      (get_relevant_passages q db 5).passages = some []) :
    (main_turn db gen history q).history =
      history ++ [{ role := "user", content := q },
        { role := "assistant", content := fallback_text }] ∧
    (main_turn db gen history q).genCalls = [] := by
  unfold main_turn
  rw [if_neg hq]
  rcases hr with hr | hr <;> simp [hr]

/-- Witness for C1: an erroring backend on a fresh session. -/
theorem turn_fallback_no_generation_witness :
    (main_turn db_err gen0 [] "desert safari").history =
      [{ role := "user", content := "desert safari" },
        { role := "assistant", content := fallback_text }] ∧
    (main_turn db_err gen0 [] "desert safari").genCalls = [] := by
  have h := turn_fallback_no_generation db_err gen0 [] "desert safari"
    (by decide) (Or.inl rfl)
  simpa using h

/-- C9: the Generation Client is invoked exactly when the retriever returned a
nonempty passage list; a retriever result of `some []` (an empty sequence
rather than `None`) also takes the fallback branch, because `if passages:`
tests truthiness. -/
theorem generation_iff_nonempty_passages (db : DB) (gen : String → String)
    (history : List Message) (q : String) (hq : q ≠ "") :
    ((main_turn db gen history q).genCalls ≠ [] ↔
      ∃ p ps, (get_relevant_passages q db 5).passages = some (p :: ps)) ∧
    ((get_relevant_passages q db 5).passages = some [] →
      (main_turn db gen history q).genCalls = [] ∧
      (main_turn db gen history q).history =
        history ++ [{ role := "user", content := q },
          { role := "assistant", content := fallback_text }]) := by
  unfold main_turn
  rw [if_neg hq]
  rcases h : (get_relevant_passages q db 5).passages with _ | ⟨_ | ⟨p, ps⟩⟩ <;>
    simp [h]

/-- Witness for C9 at a backend returning one empty ranked list, so that the
retriever returns an empty sequence rather than `None`. -/
theorem generation_iff_nonempty_passages_witness :
    (main_turn db_empty_doc gen0 [] "hi").genCalls = [] ∧
    (main_turn db_empty_doc gen0 [] "hi").history =
      [{ role := "user", content := "hi" },
        { role := "assistant", content := fallback_text }] := by
  have h := (generation_iff_nonempty_passages db_empty_doc gen0 [] "hi"
    (by decide)).2 rfl
  simpa using h

/-- C6: the low-level retriever defaults to `n_results = 10`, and the
interactive path of `main` invokes the retriever with `n_results = 5`. -/
theorem retriever_topn_defaults (q : String) (db : DB) (gen : String → String)
    (history : List Message) (uq : String) :
    get_relevant_passages q db = get_relevant_passages q db 10 ∧
    (uq ≠ "" → (main_turn db gen history uq).retrievalCalls = [(uq, 5)]) := by
  refine ⟨rfl, fun h => ?_⟩
  unfold main_turn
  rw [if_neg h]
  rcases hp : (get_relevant_passages uq db 5).passages with _ | ⟨_ | ⟨p, ps⟩⟩ <;>
    simp [hp]

/-- Witness for C6 on a nonempty input. -/
theorem retriever_topn_defaults_witness :
    get_relevant_passages "hi" db_err = get_relevant_passages "hi" db_err 10 ∧
    (main_turn db_err gen0 [] "hi").retrievalCalls = [("hi", 5)] :=
  ⟨(retriever_topn_defaults "hi" db_err gen0 [] "hi").1,
    (retriever_topn_defaults "hi" db_err gen0 [] "hi").2 (by decide)⟩

/-- C2: for a query with at least one retrieved passage, the composed prompt
contains the query verbatim, and the context section (the joined, escaped
passages substituted into the template) contains no single-quote and no
double-quote character. -/
theorem prompt_contains_query_context_quote_free (q : String)
    (passages : List String) (hne : passages ≠ []) :
    (∃ a b, make_prompt q (convert_passages_to_string passages) = a ++ q ++ b) ∧
    ∀ c ∈ (removeChar dquote (removeChar squote
        (convert_passages_to_string passages))).data,
      c ≠ squote ∧ c ≠ dquote := by
  constructor
  · exact ⟨prompt_head,
      prompt_mid ++ removeChar dquote (removeChar squote
        (convert_passages_to_string passages)) ++ prompt_tail,
      by simp [make_prompt, String.append_assoc]⟩
  · intro c hc
    have h1 := mem_removeChar hc
    have h2 := mem_removeChar h1.1
    exact ⟨h2.2, h1.2⟩

/-- Witness for C2 at a quote-laden stored passage. -/
theorem prompt_contains_query_context_quote_free_witness :
    (∃ a b, make_prompt "Burj Khalifa deals"
      (convert_passages_to_string
        [String.mk [squote, Char.ofNat 104, Char.ofNat 105, dquote]]) =
          a ++ "Burj Khalifa deals" ++ b) ∧
    ∀ c ∈ (removeChar dquote (removeChar squote
        (convert_passages_to_string
          [String.mk [squote, Char.ofNat 104, Char.ofNat 105, dquote]]))).data,
      c ≠ squote ∧ c ≠ dquote :=
  prompt_contains_query_context_quote_free "Burj Khalifa deals"
    [String.mk [squote, Char.ofNat 104, Char.ofNat 105, dquote]] (by decide)

/-- C10: quote characters in the query survive composition: `make_prompt`
strips quotes only from the passage argument and substitutes the query
verbatim, so every character of the query (quotes included) occurs in the
prompt at the query's position. -/
theorem query_quotes_preserved (q p : String) :
    make_prompt q p =
      prompt_head ++ q ++ (prompt_mid ++
        removeChar dquote (removeChar squote p) ++ prompt_tail) ∧
    ∀ c ∈ q.data, c ∈ (make_prompt q p).data := by
  constructor
  · simp [make_prompt, String.append_assoc]
  · intro c hc
    simp only [make_prompt, String.data_append, List.mem_append]
    tauto

/-- Witness for C10 at a query holding both quote characters. -/
theorem query_quotes_preserved_witness :
    squote ∈ (make_prompt (String.mk [dquote, squote, Char.ofNat 104]) "ctx").data ∧
    dquote ∈ (make_prompt (String.mk [dquote, squote, Char.ofNat 104]) "ctx").data :=
  ⟨(query_quotes_preserved (String.mk [dquote, squote, Char.ofNat 104]) "ctx").2
      squote (by decide),
    (query_quotes_preserved (String.mk [dquote, squote, Char.ofNat 104]) "ctx").2
      dquote (by decide)⟩

/-- C5: the Prompt Composer joins passages with newline separators, removes
exactly the single- and double-quote characters from that block (no other
change), substitutes the query and the escaped context into the fixed template
carrying the persona text and the Burj Khalifa / Burj Al Arab disambiguation
instruction, and returns the filled template verbatim, its length the exact sum
of its parts (no capping or truncation). -/
theorem prompt_composer_full_spec (q : String) (ps : List String) :
    make_prompt q (convert_passages_to_string ps) =
      prompt_head ++ q ++ (prompt_mid ++
        removeChar dquote (removeChar squote (String.intercalate "\n" ps)) ++
        prompt_tail) ∧
    (∀ s : String, (removeChar dquote (removeChar squote s)).data =
      s.data.filter (fun c => c != squote && c != dquote)) ∧
    (∃ u v, prompt_head = u ++ persona_line ++ v) ∧
    (∃ u v, prompt_tail = u ++ disambiguation_line ++ v) ∧
    (make_prompt q (convert_passages_to_string ps)).length =
      prompt_head.length + q.length + prompt_mid.length +
      (removeChar dquote (removeChar squote
        (String.intercalate "\n" ps))).length + prompt_tail.length := by
  refine ⟨by simp [make_prompt, convert_passages_to_string, String.append_assoc],
    removeChar_quotes_data,
    ⟨"\n    ", "\n\n    User's question: ", rfl⟩,
    ⟨prompt_tail_pre, "\n    ", rfl⟩, ?_⟩
  simp [make_prompt, convert_passages_to_string, String.length_append]

/-- Looking up the key just created finds the fresh collection. -/
theorem findCollection_insert {α : Type} (s : ChromaState α)
    (k : String × String) (fresh : α) :
    findCollection { collections := (k, fresh) :: s.collections } k =
      some fresh := by
  simp [findCollection, List.find?]

/-- Opening the same `(path, name)` twice is get-or-create twice: the second
open returns the first handle and leaves the client state unchanged. -/
theorem get_or_create_collection_idem {α : Type} (s : ChromaState α)
    (path name : String) (fresh : α) :
    get_or_create_collection
        (get_or_create_collection s path name fresh).1 path name fresh =
      get_or_create_collection s path name fresh := by
  rcases hf : findCollection s (path, name) with _ | c
  · have h1 : get_or_create_collection s path name fresh =
        ({ collections := ((path, name), fresh) :: s.collections }, fresh) := by
      simp [get_or_create_collection, hf]
    rw [h1]
    simp [get_or_create_collection, findCollection_insert]
  · have h1 : get_or_create_collection s path name fresh = (s, c) := by
      simp [get_or_create_collection, hf]
    rw [h1]
    simp [get_or_create_collection, hf]

/-- C7: opening the vector store twice with the same path and collection name
is idempotent: the second handle is the first one (same underlying data), the
client state is unchanged, and any retrieval function applied to the two
handles gives identical results for the same query. -/
theorem loadVectorDataBase_idempotent {α : Type} (β : Type)
    (retrieve : α → String → Nat → β) (s : ChromaState α) (fresh : α) :
    (loadVectorDataBase (loadVectorDataBase s fresh).1 fresh).2 =
      (loadVectorDataBase s fresh).2 ∧
    (loadVectorDataBase (loadVectorDataBase s fresh).1 fresh).1 =
      (loadVectorDataBase s fresh).1 ∧
    ∀ q n,
      retrieve (loadVectorDataBase (loadVectorDataBase s fresh).1 fresh).2 q n =
        retrieve (loadVectorDataBase s fresh).2 q n := by
  have h := get_or_create_collection_idem s "../database/" "sme_db" fresh
  unfold loadVectorDataBase
  exact ⟨by rw [h], by rw [h], fun q n => by rw [h]⟩

/-- The fixed markdown prefix of rendered user lines (src/app.py line 140). -/
def user_label : String := "**You:** "

/-- The fixed markdown prefix of rendered assistant lines (src/app.py
line 142). -/
def assistant_label : String := "**DuneGuide:** "

/-- C8: rendering produces, in insertion order, exactly one line per logged
message; each user line is the fixed user label followed by the content and
each assistant line the fixed assistant label followed by the content, the two
labels being the role labels wrapped in markdown bold markers. -/
theorem render_history_labelled_lines (log : List Message) :
    (render_history log).length = log.length ∧
    (∀ i : Nat, ∀ m : Message, log[i]? = some m →
      (render_history log)[i]? =
        some ((if m.role = "user" then user_label else assistant_label) ++
          m.content)) ∧
    (∃ u v, user_label = u ++ "You:" ++ v) ∧
    (∃ u v, assistant_label = u ++ "DuneGuide:" ++ v) := by
  refine ⟨by simp [render_history], fun i m hm => ?_,
    ⟨"**", "** ", by decide⟩, ⟨"**", "** ", by decide⟩⟩
  by_cases hrole : m.role = "user" <;>
    simp [render_history, List.getElem?_map, hm, render_line, hrole,
      user_label, assistant_label]

/-- Witness for C8 on a two-message log. -/
theorem render_history_labelled_lines_witness :
    (render_history [{ role := "user", content := "hi" },
        { role := "assistant", content := "hello" }]).length = 2 ∧
    (render_history [{ role := "user", content := "hi" },
        { role := "assistant", content := "hello" }])[0]? =
      some (user_label ++ "hi") := by
  have h := render_history_labelled_lines
    [{ role := "user", content := "hi" }, { role := "assistant", content := "hello" }]
  refine ⟨h.1, ?_⟩
  have h2 := h.2.1 0 { role := "user", content := "hi" } rfl
  simpa using h2

/-- The empty session log satisfies the ordering property. -/
theorem user_followed_nil : user_followed [] := by
  intro i m m2 h1 h2 hrole
  simp at h1

/-- The empty session log vacuously ends with an assistant message. -/
theorem ends_assistant_nil : ends_assistant [] := by
  intro m hm
  simp at hm

/-- Every completed turn either leaves the log unchanged (falsy empty input)
or appends exactly one user and then one assistant message. -/
theorem main_turn_history_shape (db : DB) (gen : String → String)
    (h : List Message) (q : String) :
    (main_turn db gen h q).history = h ∨
    ∃ c, (main_turn db gen h q).history =
      h ++ [{ role := "user", content := q },
        { role := "assistant", content := c }] := by
  unfold main_turn
  by_cases hq : q = ""
  · rw [if_pos hq]
    exact Or.inl rfl
  · rw [if_neg hq]
    rcases hp : (get_relevant_passages q db 5).passages with _ | ⟨_ | ⟨p, ps⟩⟩
    · exact Or.inr ⟨fallback_text, by simp [hp]⟩
    · exact Or.inr ⟨fallback_text, by simp [hp]⟩
    · exact Or.inr ⟨gen (make_prompt q (convert_passages_to_string (p :: ps))),
        by simp [hp]⟩

/-- Appending one user-assistant pair to a log that satisfies both invariants
preserves the ordering property. -/
theorem user_followed_append_turn (l : List Message) (q c : String)
    (hu : user_followed l) (he : ends_assistant l) :
    user_followed (l ++ [{ role := "user", content := q },
      { role := "assistant", content := c }]) := by
  intro i m m2 h1 h2 hrole
  rcases Nat.lt_or_ge (i + 1) l.length with hlt | hge
  · rw [List.getElem?_append_left (Nat.lt_of_succ_lt hlt)] at h1
    rw [List.getElem?_append_left hlt] at h2
    exact hu i m m2 h1 h2 hrole
  · rcases Nat.eq_or_lt_of_le hge with heq | hgt
    · have hi : i < l.length := by omega
      rw [List.getElem?_append_left hi] at h1
      have hieq : i = l.length - 1 := by omega
      rw [hieq] at h1
      have ha := he m h1
      rw [hrole] at ha
      exact absurd ha (by decide)
    · have hge2 : l.length ≤ i := by omega
      rw [List.getElem?_append_right (by omega)] at h2
      rcases Nat.eq_or_lt_of_le hge2 with heq2 | hgt2
      · have h3 : i + 1 - l.length = 1 := by omega
        rw [h3] at h2
        simp at h2
        simp [← h2]
      · have h4 : ([({ role := "user", content := q } : Message),
            { role := "assistant", content := c }] : List Message).length ≤
              i + 1 - l.length := by
          simp
          omega
        rw [List.getElem?_eq_none h4] at h2
        exact absurd h2 (by simp)

/-- A log extended by a user-assistant pair ends with an assistant message. -/
theorem ends_assistant_append_turn (l : List Message) (q c : String) :
    ends_assistant (l ++ [{ role := "user", content := q },
      { role := "assistant", content := c }]) := by
  intro m hm
  have hlen : (l ++ [({ role := "user", content := q } : Message),
      { role := "assistant", content := c }]).length = l.length + 2 := by simp
  rw [hlen] at hm
  have h1 : l.length + 2 - 1 = l.length + 1 := by omega
  rw [h1] at hm
  rw [List.getElem?_append_right (by omega)] at hm
  have h2 : l.length + 1 - l.length = 1 := by omega
  rw [h2] at hm
  simp at hm
  simp [← hm]

/-- Every reachable conversation log satisfies the ordering property and, when
nonempty, ends with an assistant message. -/
theorem reachable_log_invariant (db : DB) (gen : String → String)
    (log : List Message) (hr : ReachableLog db gen log) :
    user_followed log ∧ ends_assistant log := by
  induction hr with
  | init => exact ⟨user_followed_nil, ends_assistant_nil⟩
  | step h q hprev ih =>
      rcases main_turn_history_shape db gen h q with hs | ⟨c, hs⟩
      · rw [hs]
        exact ih
      · rw [hs]
        exact ⟨user_followed_append_turn h q c ih.1 ih.2,
          ends_assistant_append_turn h q c⟩

/-- C4: after every completed turn of `main`, the conversation log satisfies
the ordering invariant: every user message at index `i` (except possibly the
last message) is immediately followed at index `i + 1` by an assistant
message, which is either a real generation or the fixed fallback. -/
theorem conversation_log_user_followed (db : DB) (gen : String → String)
    (log : List Message) (hr : ReachableLog db gen log) :
    user_followed log :=
  (reachable_log_invariant db gen log hr).1

/-- Witness for C4 on the log left by one completed turn against an erroring
backend. -/
theorem conversation_log_user_followed_witness :
    user_followed (main_turn db_err gen0 [] "hi").history :=
  conversation_log_user_followed db_err gen0 _
    (ReachableLog.step [] "hi" ReachableLog.init)
